import Mathlib

/-!
Verification of `src/utils.c` of TRIAD-Blockchain: a set of input-validation
guards and a lazily-seeded pseudo-random number generator.

Modelling conventions:
- C `int` and `long long int` parameters are modelled as `Int` (comparisons in
  the source never overflow, so the embedding is exact on in-range inputs).
- A function that either returns normally or calls `exit(code)` is modelled as
  returning an `Outcome`: `Outcome.normal` or `Outcome.exited code`.
- The libc generator (`srand`/`rand`/`RAND_MAX`) is not part of the repository;
  it is modelled abstractly as any structure `LibcRand S` with a seeding
  function, a step function producing a value `≤ randMax`, and `0 < randMax`.
  The double division `(double)rand() / (double)RAND_MAX` is modelled as exact
  rational division, which agrees with IEEE double semantics on the boundary
  questions at issue (the quotient is 0 exactly when the numerator is 0 and
  1 exactly when the numerator equals `RAND_MAX`).
- The static flag `initialized` inside `genrand_real1` is the field `seeded`
  of `RngState`; wall-clock time (`time(NULL)`) is an explicit `now` argument.
-/

namespace TriadUtils

/-- Result of calling a C function that either returns normally or terminates
the process via `exit`. -/
inductive Outcome where
  | normal : Outcome
  | exited : Int → Outcome
deriving DecidableEq, Repr

/-- Abstract model of the libc generator: `seedOf` models `srand`, `step`
models one `rand()` call on a hidden state of type `S`, `randMax` models
`RAND_MAX`. -/
structure LibcRand (S : Type) where
  seedOf : Nat → S
  step : S → Nat × S
  randMax : Nat
  randMax_pos : 0 < randMax
  step_le : ∀ s, (step s).1 ≤ randMax

/-- Process-wide RNG state: the static flag `initialized` of `genrand_real1`
(called `seeded` here) together with the hidden libc generator state. -/
structure RngState (S : Type) where
  seeded : Bool
  rng : S
deriving DecidableEq

/-- Embedding of `genrand_real1` (src/utils.c lines 10-19): if the static flag
is unset it calls `srand(time(NULL))` — `time(NULL)` being the explicit `now`
argument — and sets the flag; it then returns `(double)rand() / (double)RAND_MAX`
together with the updated process state. -/
def genrand_real1 {S : Type} (L : LibcRand S) (now : Nat) (st : RngState S) :
    ℚ × RngState S :=
  let st1 : RngState S := if st.seeded then st else ⟨true, L.seedOf now⟩
  let p := L.step st1.rng
  (((p.1 : ℚ)) / (L.randMax : ℚ), ⟨true, p.2⟩)

/-- Embedding of `init_by_array` (src/utils.c lines 22-26): calls
`srand(init_key[0])`. It reads only the first element, ignores `key_length`,
and does not touch the static `initialized` flag of `genrand_real1`. -/
def init_by_array {S : Type} (L : LibcRand S) (init_key : List Nat)
    (key_length : Int) (st : RngState S) : RngState S :=
  ⟨st.seeded, L.seedOf init_key.headI⟩

/-- Sequence of `k` successive `genrand_real1` values, the wall-clock time at
each call being drawn from the `times` list. -/
def draws {S : Type} (L : LibcRand S) :
    Nat → List Nat → RngState S → List ℚ
  | 0, _, _ => []
  | Nat.succ k, times, st =>
    let r := genrand_real1 L times.headI st
    r.1 :: draws L k times.tail r.2

/-- A concrete admissible libc instance used for witnesses and
counterexamples: the state is a counter, `rand` returns the counter modulo
32768 with `RAND_MAX = 32767` (the C minimum). -/
def modelLibc : LibcRand Nat where
  seedOf n := n
  step s := (s % 32768, s + 1)
  randMax := 32767
  randMax_pos := by decide
  step_le s := Nat.le_of_lt_succ (Nat.mod_lt _ (by decide))

/-- Embedding of `validateControlTarget` (src/utils.c lines 29-34):
`exit(1)` when `controlQubit >= numQubits || targetQubit >= numQubits ||
controlQubit == targetQubit`, otherwise return normally. -/
def validateControlTarget (controlQubit targetQubit numQubits : Int) : Outcome :=
  if controlQubit ≥ numQubits ∨ targetQubit ≥ numQubits ∨
      controlQubit = targetQubit then
    Outcome.exited 1
  else
    Outcome.normal

/-- Embedding of `validateTarget` (src/utils.c lines 36-41): `exit(1)` when
`targetQubit >= numQubits`, otherwise return normally. -/
def validateTarget (targetQubit numQubits : Int) : Outcome :=
  if targetQubit ≥ numQubits then Outcome.exited 1 else Outcome.normal

/-- Embedding of `validateNumQubitsInQureg` (src/utils.c lines 43-49):
`exit(1)` when `numQubits <= 0 || numQubits > 50`, otherwise return
normally. -/
def validateNumQubitsInQureg (numQubits : Int) : Outcome :=
  if numQubits ≤ 0 ∨ numQubits > 50 then Outcome.exited 1 else Outcome.normal

/-- Embedding of `validateMemoryAllocationSize` (src/utils.c lines 51-56):
`exit(1)` when `numValues <= 0`, otherwise return normally. The C parameter is
a `long long int`. -/
def validateMemoryAllocationSize (numValues : Int) : Outcome :=
  if numValues ≤ 0 then Outcome.exited 1 else Outcome.normal

/-- Embedding of `validateQuregAllocation` (src/utils.c lines 58-63): the
pointer is modelled as a `Nat` address with `0` playing the role of `NULL`;
`exit(1)` when the pointer is null, otherwise return normally. The second
parameter `numQubits` is never read. -/
def validateQuregAllocation (qureg : Nat) (numQubits : Int) : Outcome :=
  if qureg = 0 then Outcome.exited 1 else Outcome.normal

/-- Embedding of `raiseQASMBufferOverflow` (src/utils.c lines 66-69):
unconditionally `exit(1)`. -/
def raiseQASMBufferOverflow : Outcome :=
  Outcome.exited 1

/-- C1: the claim asserts that two fresh runs that call `reseed([42], 1)` and
then `draw()` produce the same values regardless of wall-clock time, including
when no `draw()` preceded the reseed. In the code `init_by_array` does not set
the static `initialized` flag of `genrand_real1`, so the first draw after the
reseed calls `srand(time(NULL))` and overwrites the explicit seed: with the
model libc, a fresh run reseeded with `[42]` drawing once at time 0 and a
second such run drawing at time 1 yield different sequences. -/
theorem reseed_then_first_draw_depends_on_time :
    draws modelLibc 1 [0] (init_by_array modelLibc [42] 1 ⟨false, 0⟩)
      ≠ draws modelLibc 1 [1] (init_by_array modelLibc [42] 1 ⟨false, 0⟩) := by
  simp [draws, genrand_real1, init_by_array, modelLibc]

/-- C2: the claim asserts that when `reseed` is called before the first
`draw()`, subsequent draws follow the explicitly-set seed's sequence rather
than a time-based one. In the code the first draw after a fresh
`reseed([42], 1)` at wall-clock time 7 produces the time-seeded value
(7/32767 in the model libc), whereas the explicitly-set seed's first value is
42/32767, and the two differ. -/
theorem reseed_before_first_draw_overridden :
    (genrand_real1 modelLibc 7 (init_by_array modelLibc [42] 1 ⟨false, 0⟩)).1
        = (7 : ℚ) / 32767 ∧
    ((modelLibc.step (modelLibc.seedOf 42)).1 : ℚ) / (modelLibc.randMax : ℚ)
        = (42 : ℚ) / 32767 ∧
    (7 : ℚ) / 32767 ≠ (42 : ℚ) / 32767 := by
  refine ⟨by simp [genrand_real1, init_by_array, modelLibc], ?_, by norm_num⟩
  norm_num [modelLibc]

/-- C3 counterexample: the claim says the drawn value is strictly less than 1
for every raw value in `[0, max_raw_value]`, but when the raw draw equals
`RAND_MAX` the value `(double)rand() / (double)RAND_MAX` is exactly 1: with the
model libc in state 32767 the draw returns 1, which is not `< 1`. -/
theorem draw_value_can_reach_one :
    (genrand_real1 modelLibc 0 ⟨true, 32767⟩).1 = 1 ∧
    ¬ ((genrand_real1 modelLibc 0 ⟨true, 32767⟩).1 < 1) := by
  have h : (genrand_real1 modelLibc 0 ⟨true, 32767⟩).1 = 1 := by
    simp [genrand_real1, modelLibc]
  exact ⟨h, by rw [h]; exact lt_irrefl 1⟩

/-- C3 amended: for every call and every underlying generator, `draw()`
returns `raw_draw() / max_raw_value`, and this value lies in the closed
interval `[0, 1]`: it is at least 0 and at most 1 (it equals 1 exactly when
the raw draw equals `max_raw_value`). -/
theorem genrand_real1_formula_and_closed_range {S : Type} (L : LibcRand S)
    (now : Nat) (st : RngState S) :
    (genrand_real1 L now st).1 =
      ((L.step (if st.seeded then st.rng else L.seedOf now)).1 : ℚ) /
        (L.randMax : ℚ) ∧
    0 ≤ (genrand_real1 L now st).1 ∧ (genrand_real1 L now st).1 ≤ 1 := by
  unfold genrand_real1
  refine ⟨by split <;> rfl, by positivity, ?_⟩
  apply div_le_one_of_le₀
  · exact_mod_cast L.step_le _
  · positivity

/-- C4 counterexample: the claim says `validate_control_target` returns
normally exactly when both indices lie in `[0, total)`, but the code performs
no lower-bound check: `validateControlTarget(-1, 0, 5)` returns normally even
though `-1` is not in `[0, 5)`. -/
theorem validateControlTarget_negative_control_passes :
    validateControlTarget (-1) 0 5 = Outcome.normal ∧ ¬ (0 ≤ (-1 : Int)) := by
  exact ⟨rfl, by decide⟩

/-- C4 amended: `validate_control_target(control, target, total)` returns
normally exactly when `control ≠ target`, `control < total` and
`target < total` (no lower bound is checked); it terminates the process with
exit status 1 when `control = target`, or `control ≥ total`, or
`target ≥ total`. -/
theorem validateControlTarget_normal_iff (c t n : Int) :
    validateControlTarget c t n = Outcome.normal ↔ (c ≠ t ∧ c < n ∧ t < n) := by
  unfold validateControlTarget
  split <;> simp_all <;> omega

/-- C5: `validate_num_qubits(count)` returns normally exactly when
`0 < count ≤ 50`; for every other integer it terminates the process. -/
theorem validateNumQubitsInQureg_normal_iff (n : Int) :
    validateNumQubitsInQureg n = Outcome.normal ↔ (0 < n ∧ n ≤ 50) := by
  unfold validateNumQubitsInQureg
  split <;> simp_all <;> omega

/-- C6: `init_by_array` ignores its `key_length` argument — for every key
array and every pair of count values the resulting generator state is
identical — and the state it installs depends only on the first element of
the key array. -/
theorem init_by_array_count_irrelevant :
    (∀ (S : Type) (L : LibcRand S) (st : RngState S) (keys : List Nat)
        (c1 c2 : Int),
        init_by_array L keys c1 st = init_by_array L keys c2 st) ∧
    (∀ (S : Type) (L : LibcRand S) (st : RngState S) (keys keys' : List Nat)
        (c1 c2 : Int),
        keys.headI = keys'.headI →
        init_by_array L keys c1 st = init_by_array L keys' c2 st) := by
  constructor
  · intro S L st keys c1 c2
    rfl
  · intro S L st keys keys' c1 c2 h
    unfold init_by_array
    rw [h]

/-- Witness for C6: reseeding with `[42]` and count 1 equals reseeding with
`[42, 99]` and count 2, since both key arrays share the first element. -/
theorem init_by_array_count_irrelevant_witness :
    init_by_array modelLibc [42] 1 ⟨false, 0⟩
        = init_by_array modelLibc [42] 2 ⟨false, 0⟩ ∧
    init_by_array modelLibc [42] 1 ⟨false, 0⟩
        = init_by_array modelLibc [42, 99] 2 ⟨false, 0⟩ :=
  ⟨init_by_array_count_irrelevant.1 Nat modelLibc ⟨false, 0⟩ [42] 1 2,
   init_by_array_count_irrelevant.2 Nat modelLibc ⟨false, 0⟩ [42] [42, 99] 1 2
     rfl⟩

/-- C7: for every 64-bit signed integer `n`, `validate_memory_allocation_size`
returns normally exactly when `n` is positive, and terminates the process for
`n ≤ 0`. -/
theorem validateMemoryAllocationSize_normal_iff (n : Int)
    (h1 : -(2 ^ 63) ≤ n) (h2 : n < 2 ^ 63) :
    validateMemoryAllocationSize n = Outcome.normal ↔ 0 < n := by
  unfold validateMemoryAllocationSize
  split <;> simp_all <;> omega

/-- Witness for C7: `validate_memory_allocation_size(1024)` returns normally. -/
theorem validateMemoryAllocationSize_normal_iff_witness :
    validateMemoryAllocationSize 1024 = Outcome.normal ↔ 0 < (1024 : Int) :=
  validateMemoryAllocationSize_normal_iff 1024 (by decide) (by decide)

/-- C8: `raiseQASMBufferOverflow` terminates the process unconditionally with
exit status 1, and every validation guard either returns normally or
terminates with exit status exactly 1 — no other status ever occurs. -/
theorem exit_status_always_one :
    raiseQASMBufferOverflow = Outcome.exited 1 ∧
    (∀ c t n : Int, validateControlTarget c t n = Outcome.normal ∨
        validateControlTarget c t n = Outcome.exited 1) ∧
    (∀ t n : Int, validateTarget t n = Outcome.normal ∨
        validateTarget t n = Outcome.exited 1) ∧
    (∀ n : Int, validateNumQubitsInQureg n = Outcome.normal ∨
        validateNumQubitsInQureg n = Outcome.exited 1) ∧
    (∀ n : Int, validateMemoryAllocationSize n = Outcome.normal ∨
        validateMemoryAllocationSize n = Outcome.exited 1) ∧
    (∀ (p : Nat) (n : Int), validateQuregAllocation p n = Outcome.normal ∨
        validateQuregAllocation p n = Outcome.exited 1) := by
  refine ⟨rfl, ?_, ?_, ?_, ?_, ?_⟩
  · intro c t n
    unfold validateControlTarget
    split <;> simp
  · intro t n
    unfold validateTarget
    split <;> simp
  · intro n
    unfold validateNumQubitsInQureg
    split <;> simp
  · intro n
    unfold validateMemoryAllocationSize
    split <;> simp
  · intro p n
    unfold validateQuregAllocation
    split <;> simp

/-- C9: the outcome of `validateQuregAllocation` depends only on the register
pointer, never on the `numQubits` argument, and it returns normally exactly
when the pointer is non-null. -/
theorem validateQuregAllocation_independent_of_numQubits :
    ∀ (p : Nat) (n1 n2 : Int),
      validateQuregAllocation p n1 = validateQuregAllocation p n2 ∧
      (validateQuregAllocation p n1 = Outcome.normal ↔ p ≠ 0) := by
  intro p n1 n2
  unfold validateQuregAllocation
  exact ⟨rfl, by split <;> simp_all⟩

/-- C10: negative qubit indices pass the guards: every negative `target`
below `numQubits` (including `numQubits = 0`) passes `validateTarget`, and
every distinct pair of negative `control`/`target` indices below `numQubits`
passes `validateControlTarget`. -/
theorem negative_indices_pass_guards :
    (∀ target numQubits : Int, target < 0 → target < numQubits →
        validateTarget target numQubits = Outcome.normal) ∧
    (∀ control target numQubits : Int, control < 0 → target < 0 →
        control ≠ target → control < numQubits → target < numQubits →
        validateControlTarget control target numQubits = Outcome.normal) := by
  constructor
  · intro t n _ htn
    unfold validateTarget
    rw [if_neg (by omega)]
  · intro c t n _ _ hne hcn htn
    unfold validateControlTarget
    rw [if_neg (by omega)]

/-- Witness for C10: `validateTarget(-1, 0)` and
`validateControlTarget(-2, -1, 0)` both return normally even though the
register size is 0. -/
theorem negative_indices_pass_guards_witness :
    validateTarget (-1) 0 = Outcome.normal ∧
    validateControlTarget (-2) (-1) 0 = Outcome.normal :=
  ⟨negative_indices_pass_guards.1 (-1) 0 (by decide) (by decide),
   negative_indices_pass_guards.2 (-2) (-1) 0 (by decide) (by decide)
     (by decide) (by decide) (by decide)⟩

end TriadUtils
